import Mathlib

/-!
Shallow embedding of `src/render_models.rs` (rust-openvr render-model core).

Modelling conventions:
* Raw driver status codes (`openvr_sys::EVRRenderModelError`) become a closed
  inductive type.  The `Error<T>` wrapper of the crate is, for this module,
  just a raw code carrier (`from_raw`/`to_raw` are mutually inverse), so we
  work with the raw code directly.
* The driver function table `VR_IVRRenderModels_FnTable` becomes a structure
  of response functions: the driver's answer to each entry point.  Foreign
  pointers are modelled as `Nat` addresses.
* Side effects at the FFI boundary (C-string allocation and reclamation,
  driver calls, `FreeRenderModel`/`FreeTexture` calls) are recorded as an
  explicit event trace returned next to the result.
* Rust panics (`unwrap`, `panic!`) are modelled as `Option.none` or as an
  explicit fault value, depending on the function.
* Machine integers (`u8`, `u16`, `u32`) are modelled as `Nat` (with `Fin`
  codomains where the element width matters); no arithmetic in this module
  can overflow the original widths in a way that changes behaviour.
* The global driver-subsystem accessor `subsystems::render_models()` is not
  part of `src/`; following the spec it is modelled as an ambient
  `Option VR_IVRRenderModels_FnTable` value passed to the operations whose
  source reaches the driver through it (`Drop` impls, `load_texture_async`,
  `get_name`); `none` models the accessor failing, on which the source's
  `.unwrap()` panics.
-/

deriving instance DecidableEq for Except

/-- Models `openvr_sys::EVRRenderModelError`: the closed set of driver status
codes for render-model operations. -/
inductive EVRRenderModelError where
  | VRRenderModelError_None
  | VRRenderModelError_Loading
  | VRRenderModelError_NotSupported
  | VRRenderModelError_InvalidArg
  | VRRenderModelError_InvalidModel
  | VRRenderModelError_NoShapes
  | VRRenderModelError_MultipleShapes
  | VRRenderModelError_TooManyVertices
  | VRRenderModelError_MultipleTextures
  | VRRenderModelError_BufferTooSmall
  | VRRenderModelError_NotEnoughNormals
  | VRRenderModelError_NotEnoughTexCoords
  | VRRenderModelError_InvalidTexture
  deriving DecidableEq, Repr

/-- Models `AsyncError::is_loading` for `Error<EVRRenderModelError>`
(`render_models.rs` lines 20-31): matches the raw code against
`EVRRenderModelError_VRRenderModelError_Loading`, every other code falls to
the wildcard arm returning `false`. -/
def is_loading (e : EVRRenderModelError) : Bool :=
  match e with
  | .VRRenderModelError_Loading => true
  | _ => false

/-- Models the driver's answer to one `LoadRenderModel_Async` call: the
returned status code and the pointer value written through the out
parameter. -/
structure LoadModelResponse where
  err : EVRRenderModelError
  ptr : Nat
  deriving DecidableEq, Repr

/-- Models the driver's answer to one `LoadTexture_Async` call. -/
structure LoadTextureResponse where
  err : EVRRenderModelError
  ptr : Nat
  deriving DecidableEq, Repr

/-- Models `openvr_sys::VR_IVRRenderModels_FnTable`: the driver entry points
this module calls, each given by its response.  `GetRenderModelName` maps an
index and a buffer capacity to the returned length and the bytes the driver
writes into the caller's buffer.  The `FreeRenderModel`/`FreeTexture` entry
points return nothing; their invocations are recorded in event traces
instead. -/
structure VR_IVRRenderModels_FnTable where
  GetRenderModelCount : Nat
  GetRenderModelName : Nat → Nat → Nat × List Nat
  LoadRenderModel_Async : List Nat → LoadModelResponse
  LoadTexture_Async : Int → LoadTextureResponse

/-- Models `RenderModel(*mut openvr_sys::RenderModel_t)`: the owning handle,
carrying the foreign pointer received from the driver. -/
structure RenderModel where
  ptr : Nat
  deriving DecidableEq, Repr

/-- Models `RenderModelTexture(*mut openvr_sys::RenderModel_TextureMap_t)`. -/
structure RenderModelTexture where
  ptr : Nat
  deriving DecidableEq, Repr

/-- Models the pointee `openvr_sys::RenderModel_t`: vertex array, vertex
count, index array (`u16` elements, hence `Fin 65536`), triangle count and
the diffuse texture id.  The vertex element type (a struct of `f32` triples
whose contents this module never inspects) is kept as a type parameter; the
arrays are modelled as the contents of foreign memory, one element per
offset. -/
structure RenderModel_t (α : Type) where
  rVertexData : Nat → α
  unVertexCount : Nat
  rIndexData : Nat → Fin 65536
  unTriangleCount : Nat
  diffuseTextureId : Int

/-- Models the pointee `openvr_sys::RenderModel_TextureMap_t`: width, height
and the `u8` pixel buffer. -/
structure RenderModel_TextureMap_t where
  unWidth : Nat
  unHeight : Nat
  rubTextureMapData : Nat → Fin 256

/-- A read through one of the borrowed buffer views of a live handle. -/
inductive ViewUse where
  | vertexRead (i : Nat)
  | indexRead (i : Nat)
  | texelRead (i : Nat)
  deriving DecidableEq, Repr

/-- Observable events at the FFI boundary, in program order. -/
inductive Event where
  | cstringAlloc (bytes : List Nat)
  | driverLoadModelCall (name : List Nat)
  | cstringFree (bytes : List Nat)
  | driverLoadTextureCall (id : Int)
  | viewUse (ptr : Nat) (u : ViewUse)
  | freeRenderModelCall (ptr : Nat)
  | freeTextureCall (ptr : Nat)
  deriving DecidableEq, Repr

/-- Models `IVRRenderModels::get_count` (`render_models.rs` lines 145-151):
a single `GetRenderModelCount` call through the table stored in `self.0`. -/
def IVRRenderModels.get_count (self : VR_IVRRenderModels_FnTable) : Nat :=
  self.GetRenderModelCount

/-- Models `IVRRenderModels::load_async` (`render_models.rs` lines 203-228).
`name` is the byte content of the Rust `String` argument.
`CString::new(..).unwrap()` panics (`none`) exactly when the name holds an
interior NUL byte; otherwise the temporary C string is allocated, the one
`LoadRenderModel_Async` driver call is issued through the table stored in
`self.0`, and the C string is reclaimed (`CString::from_raw`), in that
order.  The source then matches the returned code: the `None` (success) arm
wraps the out-pointer as an owned `RenderModel`; the wildcard arm returns
the code as the error. -/
def IVRRenderModels.load_async (self : VR_IVRRenderModels_FnTable)
    (name : List Nat) :
    Option (Except EVRRenderModelError RenderModel × List Event) :=
  if name.contains 0 then
    none
  else
    let resp := self.LoadRenderModel_Async name
    let result : Except EVRRenderModelError RenderModel :=
      if resp.err = .VRRenderModelError_None then .ok ⟨resp.ptr⟩
      else .error resp.err
    some (result, [.cstringAlloc name, .driverLoadModelCall name, .cstringFree name])

/-- Models `IVRRenderModels::load` (`render_models.rs` lines 180-197): the
blocking retry loop around `load_async`.  The driver's state evolves between
polls, so `tables k` gives the responses of the (fixed) `self.0` table at
the k-th iteration.  The loop in the source is unbounded; here `fuel` bounds
the modelled unrolling and `none` means the modelled prefix ended without the
loop returning (or a panic escaped from `load_async`).  The second component
of a returned pair is the total milliseconds slept: 10 per iteration that
observed a Loading error, matching `sleep(Duration::from_millis(10))`. -/
def IVRRenderModels.load (tables : Nat → VR_IVRRenderModels_FnTable)
    (name : List Nat) :
    Nat → Option (Except EVRRenderModelError RenderModel × Nat)
  | 0 => none
  | fuel + 1 =>
    match IVRRenderModels.load_async (tables 0) name with
    | none => none
    | some (.ok model, _) => some (.ok model, 0)
    | some (.error e, _) =>
      if is_loading e then
        match IVRRenderModels.load (fun j => tables (j + 1)) name fuel with
        | some (r, slept) => some (r, slept + 10)
        | none => none
      else
        some (.error e, 0)

/-- Models `RenderModel::load_texture_async` (`render_models.rs` lines
76-96).  The source reaches the driver through the global subsystem
accessor: `render_models().unwrap().0`; `global = none` models the accessor
failing, on which `.unwrap()` panics.  Otherwise one `LoadTexture_Async`
call is issued with `(*self.0).diffuseTextureId`, and the returned code is
matched exactly as in `load_async`. -/
def RenderModel.load_texture_async {α : Type}
    (global : Option VR_IVRRenderModels_FnTable) (model : RenderModel_t α) :
    Option (Except EVRRenderModelError RenderModelTexture × List Event) :=
  match global with
  | none => none
  | some models =>
    let resp := models.LoadTexture_Async model.diffuseTextureId
    let result : Except EVRRenderModelError RenderModelTexture :=
      if resp.err = .VRRenderModelError_None then .ok ⟨resp.ptr⟩
      else .error resp.err
    some (result, [.driverLoadTextureCall model.diffuseTextureId])

/-- Models `RenderModel::load_texture` (`render_models.rs` lines 99-116):
the blocking retry loop around `load_texture_async`, structured exactly like
`IVRRenderModels.load`.  `globals k` is the ambient subsystem state at the
k-th iteration. -/
def RenderModel.load_texture {α : Type}
    (globals : Nat → Option VR_IVRRenderModels_FnTable)
    (model : RenderModel_t α) :
    Nat → Option (Except EVRRenderModelError RenderModelTexture × Nat)
  | 0 => none
  | fuel + 1 =>
    match RenderModel.load_texture_async (globals 0) model with
    | none => none
    | some (.ok texture, _) => some (.ok texture, 0)
    | some (.error e, _) =>
      if is_loading e then
        match RenderModel.load_texture (fun j => globals (j + 1)) model fuel with
        | some (r, slept) => some (r, slept + 10)
        | none => none
      else
        some (.error e, 0)

/-- Models `impl Drop for RenderModel` (`render_models.rs` lines 33-43): the
destructor reaches the driver through the global accessor
(`render_models().unwrap().0`, panicking when it fails) and issues exactly
one `FreeRenderModel` call with the owned pointer `self.0`. -/
def RenderModel.drop (global : Option VR_IVRRenderModels_FnTable)
    (m : RenderModel) : Option Event :=
  match global with
  | none => none
  | some _ => some (.freeRenderModelCall m.ptr)

/-- Models `impl Drop for RenderModelTexture` (`render_models.rs` lines
45-55): symmetric to `RenderModel.drop`, issuing one `FreeTexture` call. -/
def RenderModelTexture.drop (global : Option VR_IVRRenderModels_FnTable)
    (t : RenderModelTexture) : Option Event :=
  match global with
  | none => none
  | some _ => some (.freeTextureCall t.ptr)

/-- Models `RenderModel::vertex_iter` (`render_models.rs` lines 59-64):
`slice::from_raw_parts((*self.0).rVertexData, (*self.0).unVertexCount)`
viewed as the sequence it iterates, in memory order, without copying.  The
argument is the pointee of the handle. -/
def RenderModel.vertex_iter {α : Type} (m : RenderModel_t α) : List α :=
  (List.range m.unVertexCount).map m.rVertexData

/-- Models `RenderModel::index_iter` (`render_models.rs` lines 67-72):
`slice::from_raw_parts((*self.0).rIndexData, (*self.0).unTriangleCount * 3)`
as the sequence of `u16` indices it iterates. -/
def RenderModel.index_iter {α : Type} (m : RenderModel_t α) : List (Fin 65536) :=
  (List.range (m.unTriangleCount * 3)).map m.rIndexData

/-- Models `RenderModelTexture::dimension` (`render_models.rs` lines
121-125): reads `(unWidth, unHeight)` from the pointee. -/
def RenderModelTexture.dimension (t : RenderModel_TextureMap_t) : Nat × Nat :=
  (t.unWidth, t.unHeight)

/-- Models `RenderModelTexture::to_vec` (`render_models.rs` lines 128-136):
copies `width * height * 4` bytes out of `rubTextureMapData` into a fresh
owned vector (`Vec::extend_from_slice`). -/
def RenderModelTexture.to_vec (t : RenderModel_TextureMap_t) : List (Fin 256) :=
  (List.range (t.unWidth * t.unHeight * 4)).map t.rubTextureMapData

/-- Models strict UTF-8 decoding of a byte sequence, the semantics of Rust's
`String::from_utf8` as used by `CString::into_string` in `get_name`
(`render_models.rs` line 171): rejects truncated sequences, stray or missing
continuation bytes, overlong encodings, surrogate code points and code
points above `0x10FFFF`; accepts everything else, NUL included.  Returns the
decoded characters, or `none` on ill-formed input. -/
def utf8DecodeBytes : List Nat → Option (List Char)
  | [] => some []
  | b0 :: bs =>
    if b0 < 0x80 then
      (utf8DecodeBytes bs).map (fun cs => Char.ofNat b0 :: cs)
    else if b0 < 0xC0 then
      none
    else if b0 < 0xE0 then
      match bs with
      | b1 :: bs1 =>
        if 0x80 ≤ b1 ∧ b1 < 0xC0 then
          let c := (b0 - 0xC0) * 0x40 + (b1 - 0x80)
          if 0x80 ≤ c then
            (utf8DecodeBytes bs1).map (fun cs => Char.ofNat c :: cs)
          else none
        else none
      | [] => none
    else if b0 < 0xF0 then
      match bs with
      | b1 :: b2 :: bs2 =>
        if (0x80 ≤ b1 ∧ b1 < 0xC0) ∧ (0x80 ≤ b2 ∧ b2 < 0xC0) then
          let c := (b0 - 0xE0) * 0x1000 + (b1 - 0x80) * 0x40 + (b2 - 0x80)
          if 0x800 ≤ c ∧ (c < 0xD800 ∨ 0xDFFF < c) then
            (utf8DecodeBytes bs2).map (fun cs => Char.ofNat c :: cs)
          else none
        else none
      | _ => none
    else if b0 < 0xF8 then
      match bs with
      | b1 :: b2 :: b3 :: bs3 =>
        if (0x80 ≤ b1 ∧ b1 < 0xC0) ∧ (0x80 ≤ b2 ∧ b2 < 0xC0) ∧
            (0x80 ≤ b3 ∧ b3 < 0xC0) then
          let c := (b0 - 0xF0) * 0x40000 + (b1 - 0x80) * 0x1000 +
            (b2 - 0x80) * 0x40 + (b3 - 0x80)
          if 0x10000 ≤ c ∧ c < 0x110000 then
            (utf8DecodeBytes bs3).map (fun cs => Char.ofNat c :: cs)
          else none
        else none
      | _ => none
    else none

/-- The two `panic!` sites of `IVRRenderModels::get_name`: the second driver
call reporting a size different from the first (`"name size changed"`), and
the buffer failing UTF-8 validation (`"name cannot convert to utf8"`). -/
inductive GetNameFault where
  | sizeChanged
  | utf8Invalid
  deriving DecidableEq, Repr

/-- Models `IVRRenderModels::get_name` (`render_models.rs` lines 154-176).
The source reaches the function table through the imported global subsystem
item (`render_models.0`), not through `self.0`; `models` is that table.
First phase: one `GetRenderModelName` call with a zero-capacity buffer; a
reported length of 0 returns the empty string at once.  Second phase:
allocate `required` bytes, call again with capacity `required`; a different
reported size is the `sizeChanged` panic.  Otherwise `set_len(size - 1)`
keeps the buffer minus the trailing NUL terminator and
`CString::from_vec_unchecked(..).into_string()` decodes it as UTF-8, the
`utf8Invalid` panic on failure.  The second component records every
`GetRenderModelName` call as an `(index, capacity)` pair, in order. -/
def IVRRenderModels.get_name (models : VR_IVRRenderModels_FnTable)
    (index : Nat) : Except GetNameFault String × List (Nat × Nat) :=
  let required := (models.GetRenderModelName index 0).1
  if required = 0 then
    (.ok "", [(index, 0)])
  else
    let second := models.GetRenderModelName index required
    let size := second.1
    if size ≠ required then
      (.error .sizeChanged, [(index, 0), (index, required)])
    else
      let size_without_terminator := size - 1
      let name := second.2.take size_without_terminator
      match utf8DecodeBytes name with
      | some chars => (.ok (String.mk chars), [(index, 0), (index, required)])
      | none => (.error .utf8Invalid, [(index, 0), (index, required)])

/-- Models a Rust scope in which a caller loads a render model with
`load_async`, performs the given buffer-view reads while the handle is live,
and lets the handle go out of scope: Rust runs `Drop` exactly once, at scope
end, after every use of a view borrowed from the handle (the borrow checker
forbids uses after the move into `drop`).  On a load error no handle exists,
so no `Drop` runs and the trace ends with the load's own events. -/
def renderModelScope (global : Option VR_IVRRenderModels_FnTable)
    (self : VR_IVRRenderModels_FnTable) (name : List Nat)
    (uses : List ViewUse) : Option (List Event) :=
  match IVRRenderModels.load_async self name with
  | none => none
  | some (.error _, tr) => some tr
  | some (.ok m, tr) =>
    match RenderModel.drop global m with
    | none => none
    | some d => some (tr ++ uses.map (Event.viewUse m.ptr) ++ [d])

/-- Models the symmetric scope for a texture loaded with
`load_texture_async` from a live render model. -/
def renderModelTextureScope {α : Type}
    (global : Option VR_IVRRenderModels_FnTable) (model : RenderModel_t α)
    (uses : List ViewUse) : Option (List Event) :=
  match RenderModel.load_texture_async global model with
  | none => none
  | some (.error _, tr) => some tr
  | some (.ok t, tr) =>
    match RenderModelTexture.drop global t with
    | none => none
    | some d => some (tr ++ uses.map (Event.viewUse t.ptr) ++ [d])

/-- Counts the release calls for model pointer `p` in a trace. -/
def freeModelCount (p : Nat) (evs : List Event) : Nat :=
  (evs.filter (fun e => e = Event.freeRenderModelCall p)).length

/-- Counts the release calls for texture pointer `p` in a trace. -/
def freeTextureCount (p : Nat) (evs : List Event) : Nat :=
  (evs.filter (fun e => e = Event.freeTextureCall p)).length

/-- Counts the `LoadRenderModel_Async` driver calls in a trace. -/
def driverLoadModelCallCount (evs : List Event) : Nat :=
  (evs.filter (fun e => match e with
    | Event.driverLoadModelCall _ => true
    | _ => false)).length

/-- Counts the `LoadTexture_Async` driver calls in a trace. -/
def driverLoadTextureCallCount (evs : List Event) : Nat :=
  (evs.filter (fun e => match e with
    | Event.driverLoadTextureCall _ => true
    | _ => false)).length

/-- A concrete function table used to instantiate theorems on closed
inputs. -/
def sampleTable : VR_IVRRenderModels_FnTable where
  GetRenderModelCount := 2
  GetRenderModelName := fun _ cap => if cap = 0 then (3, []) else (3, [104, 105, 0])
  LoadRenderModel_Async := fun _ => ⟨.VRRenderModelError_None, 7⟩
  LoadTexture_Async := fun _ => ⟨.VRRenderModelError_None, 9⟩

/-- A concrete table whose load entry points answer `Loading`. -/
def loadingTable : VR_IVRRenderModels_FnTable where
  GetRenderModelCount := 2
  GetRenderModelName := fun _ _ => (0, [])
  LoadRenderModel_Async := fun _ => ⟨.VRRenderModelError_Loading, 0⟩
  LoadTexture_Async := fun _ => ⟨.VRRenderModelError_Loading, 0⟩

/-- A concrete pointee used to instantiate theorems on closed inputs. -/
def sampleModel : RenderModel_t Nat where
  rVertexData := fun i => i * i
  unVertexCount := 2
  rIndexData := fun i => ⟨i % 65536, Nat.mod_lt _ (by decide)⟩
  unTriangleCount := 1
  diffuseTextureId := 3

/-- A concrete texture pointee used to instantiate theorems on closed
inputs. -/
def sampleTexture : RenderModel_TextureMap_t where
  unWidth := 2
  unHeight := 2
  rubTextureMapData := fun i => ⟨i % 256, Nat.mod_lt _ (by decide)⟩

theorem is_loading_eq_false_of_ne (e : EVRRenderModelError)
    (h : e ≠ .VRRenderModelError_Loading) : is_loading e = false := by
  cases e <;> first | rfl | exact absurd rfl h

/-- C6: the error classifier's `is_loading` is a pure total predicate over
the closed set of driver status codes, returning `true` for exactly the
`Loading` sentinel and `false` for every other code, the success code and
all terminal failure codes included. -/
theorem is_loading_true_iff_loading_code (e : EVRRenderModelError) :
    is_loading e = true ↔ e = .VRRenderModelError_Loading := by
  cases e <;> decide

/-- C7: over a pointee reporting vertex count N and triangle count T,
`vertex_iter` yields exactly N elements in driver-supplied order (the i-th
element is the i-th entry of the vertex array) and, being pure, yields the
same sequence on a second call; `index_iter` yields exactly T * 3 elements,
each a 16-bit unsigned index. -/
theorem vertex_iter_index_iter_contract {α : Type} (m : RenderModel_t α) :
    (RenderModel.vertex_iter m).length = m.unVertexCount ∧
    (∀ i, i < m.unVertexCount →
      (RenderModel.vertex_iter m).get? i = some (m.rVertexData i)) ∧
    RenderModel.vertex_iter m = RenderModel.vertex_iter m ∧
    (RenderModel.index_iter m).length = m.unTriangleCount * 3 ∧
    (∀ b, b ∈ RenderModel.index_iter m → b.val < 65536) := by
  refine ⟨?_, ?_, rfl, ?_, ?_⟩
  · simp [RenderModel.vertex_iter]
  · intro i hi
    simp only [RenderModel.vertex_iter, List.get?_eq_getElem?, List.getElem?_map,
      List.getElem?_range hi]
    rfl
  · simp [RenderModel.index_iter]
  · intro b _
    exact b.isLt

/-- Instantiation of `vertex_iter_index_iter_contract` on a concrete
pointee. -/
theorem vertex_iter_index_iter_contract_witness :
    (RenderModel.vertex_iter sampleModel).length = sampleModel.unVertexCount ∧
    (∀ i, i < sampleModel.unVertexCount →
      (RenderModel.vertex_iter sampleModel).get? i = some (sampleModel.rVertexData i)) ∧
    RenderModel.vertex_iter sampleModel = RenderModel.vertex_iter sampleModel ∧
    (RenderModel.index_iter sampleModel).length = sampleModel.unTriangleCount * 3 ∧
    (∀ b, b ∈ RenderModel.index_iter sampleModel → b.val < 65536) :=
  vertex_iter_index_iter_contract sampleModel

/-- C8: when `dimension` reports `(w, h)`, `to_vec` returns a fresh owned
sequence of exactly `w * h * 4` bytes copied element-wise out of the foreign
pixel buffer, 16 bytes in the `w = 2`, `h = 2` case. -/
theorem to_vec_copies_width_height_4_bytes (t : RenderModel_TextureMap_t)
    (w h : Nat) (hdim : RenderModelTexture.dimension t = (w, h)) :
    (RenderModelTexture.to_vec t).length = w * h * 4 ∧
    (∀ i, i < w * h * 4 →
      (RenderModelTexture.to_vec t).get? i = some (t.rubTextureMapData i)) ∧
    (w = 2 → h = 2 → (RenderModelTexture.to_vec t).length = 16) := by
  have hw : t.unWidth = w := congrArg Prod.fst hdim
  have hh : t.unHeight = h := congrArg Prod.snd hdim
  subst hw hh
  refine ⟨?_, ?_, ?_⟩
  · simp [RenderModelTexture.to_vec]
  · intro i hi
    simp only [RenderModelTexture.to_vec, List.get?_eq_getElem?, List.getElem?_map,
      List.getElem?_range hi]
    rfl
  · intro h2w h2h
    simp [RenderModelTexture.to_vec, h2w, h2h]

/-- Instantiation of `to_vec_copies_width_height_4_bytes` on a concrete 2 by
2 texture: 16 bytes. -/
theorem to_vec_copies_width_height_4_bytes_witness :
    (RenderModelTexture.to_vec sampleTexture).length = 2 * 2 * 4 ∧
    (∀ i, i < 2 * 2 * 4 →
      (RenderModelTexture.to_vec sampleTexture).get? i =
        some (sampleTexture.rubTextureMapData i)) ∧
    (2 = 2 → 2 = 2 → (RenderModelTexture.to_vec sampleTexture).length = 16) :=
  to_vec_copies_width_height_4_bytes sampleTexture 2 2 rfl

theorem load_async_eq_of_no_nul (self : VR_IVRRenderModels_FnTable)
    (name : List Nat) (h : name.contains 0 = false) :
    IVRRenderModels.load_async self name =
      some (if (self.LoadRenderModel_Async name).err = .VRRenderModelError_None
              then .ok ⟨(self.LoadRenderModel_Async name).ptr⟩
              else .error (self.LoadRenderModel_Async name).err,
            [.cstringAlloc name, .driverLoadModelCall name, .cstringFree name]) := by
  have hmem : 0 ∉ name := by simpa using h
  simp [IVRRenderModels.load_async, hmem]

/-- C3: `load_async` (and symmetrically `load_texture_async` on a live
subsystem) issues exactly one non-blocking driver call per invocation; the
result is the owned wrapped pointer exactly when the driver returns the
success code, and on every other code, Loading included, the original code
is returned as the error and no handle is produced. -/
theorem load_async_one_driver_call_success_iff :
    (∀ (self : VR_IVRRenderModels_FnTable) (name : List Nat),
      name.contains 0 = false →
      ∃ r tr, IVRRenderModels.load_async self name = some (r, tr) ∧
        driverLoadModelCallCount tr = 1 ∧
        ((self.LoadRenderModel_Async name).err = .VRRenderModelError_None →
          r = .ok ⟨(self.LoadRenderModel_Async name).ptr⟩) ∧
        ((self.LoadRenderModel_Async name).err ≠ .VRRenderModelError_None →
          r = .error (self.LoadRenderModel_Async name).err)) ∧
    (∀ (α : Type) (tbl : VR_IVRRenderModels_FnTable) (model : RenderModel_t α),
      ∃ r tr, RenderModel.load_texture_async (some tbl) model = some (r, tr) ∧
        driverLoadTextureCallCount tr = 1 ∧
        ((tbl.LoadTexture_Async model.diffuseTextureId).err = .VRRenderModelError_None →
          r = .ok ⟨(tbl.LoadTexture_Async model.diffuseTextureId).ptr⟩) ∧
        ((tbl.LoadTexture_Async model.diffuseTextureId).err ≠ .VRRenderModelError_None →
          r = .error (tbl.LoadTexture_Async model.diffuseTextureId).err)) := by
  constructor
  · intro self name h
    refine ⟨_, _, load_async_eq_of_no_nul self name h, ?_, ?_, ?_⟩
    · rfl
    · intro he
      simp [he]
    · intro he
      simp [he]
  · intro α tbl model
    by_cases he : (tbl.LoadTexture_Async model.diffuseTextureId).err = .VRRenderModelError_None
    · refine ⟨.ok ⟨(tbl.LoadTexture_Async model.diffuseTextureId).ptr⟩,
        [Event.driverLoadTextureCall model.diffuseTextureId], ?_, rfl,
        fun _ => rfl, fun hne => absurd he hne⟩
      simp [RenderModel.load_texture_async, he]
    · refine ⟨.error (tbl.LoadTexture_Async model.diffuseTextureId).err,
        [Event.driverLoadTextureCall model.diffuseTextureId], ?_, rfl,
        fun hyes => absurd hyes he, fun _ => rfl⟩
      simp [RenderModel.load_texture_async, he]

/-- Instantiation of `load_async_one_driver_call_success_iff` on a concrete
table and name. -/
theorem load_async_one_driver_call_success_iff_witness :
    ∃ r tr, IVRRenderModels.load_async sampleTable [97] = some (r, tr) ∧
      driverLoadModelCallCount tr = 1 ∧
      ((sampleTable.LoadRenderModel_Async [97]).err = .VRRenderModelError_None →
        r = .ok ⟨(sampleTable.LoadRenderModel_Async [97]).ptr⟩) ∧
      ((sampleTable.LoadRenderModel_Async [97]).err ≠ .VRRenderModelError_None →
        r = .error (sampleTable.LoadRenderModel_Async [97]).err) :=
  load_async_one_driver_call_success_iff.1 sampleTable [97] (by decide)

/-- C10: `load_async` panics during `CString::new(..).unwrap()` exactly when
the name holds an interior NUL byte, and so does each iteration of the
blocking `load`, which passes the same name; for NUL-free names the
conversion succeeds and the temporary C string is reclaimed after the
driver call, as the trace order records. -/
theorem load_async_nul_panic_and_cstring_reclaim :
    (∀ (self : VR_IVRRenderModels_FnTable) (name : List Nat),
      IVRRenderModels.load_async self name = none ↔ name.contains 0 = true) ∧
    (∀ (self : VR_IVRRenderModels_FnTable) (name : List Nat),
      name.contains 0 = false →
      ∃ r, IVRRenderModels.load_async self name =
        some (r, [.cstringAlloc name, .driverLoadModelCall name, .cstringFree name])) ∧
    (∀ (tables : Nat → VR_IVRRenderModels_FnTable) (name : List Nat) (fuel : Nat),
      name.contains 0 = true → 0 < fuel →
      IVRRenderModels.load tables name fuel = none) := by
  refine ⟨fun self name => ?_, fun self name h => ?_, fun tables name fuel h hfuel => ?_⟩
  · by_cases h : name.contains 0 <;> simp [IVRRenderModels.load_async, h]
  · exact ⟨_, load_async_eq_of_no_nul self name h⟩
  · cases fuel with
    | zero => exact absurd hfuel (Nat.not_lt_zero _)
    | succ n =>
      have hmem : 0 ∈ name := by simpa using h
      simp [IVRRenderModels.load, IVRRenderModels.load_async, hmem]

/-- Instantiation of `load_async_nul_panic_and_cstring_reclaim`: the name
`[97, 0]` holds an interior NUL, so the blocking `load` panics. -/
theorem load_async_nul_panic_and_cstring_reclaim_witness :
    IVRRenderModels.load (fun _ => sampleTable) [97, 0] 2 = none :=
  load_async_nul_panic_and_cstring_reclaim.2.2 (fun _ => sampleTable) [97, 0] 2
    (by decide) (by decide)

/-- C4: `get_name` follows the two-phase size-discovery protocol: one
zero-capacity call first; a reported required length of 0 returns empty text
after that single call; otherwise exactly one more call is issued with a
buffer of exactly the required length, and a second reported length
different from the first is the fatal `sizeChanged` fault, not a returned
value. -/
theorem get_name_two_phase_protocol (models : VR_IVRRenderModels_FnTable)
    (index : Nat) :
    ((models.GetRenderModelName index 0).1 = 0 →
      IVRRenderModels.get_name models index = (.ok "", [(index, 0)])) ∧
    ((models.GetRenderModelName index 0).1 ≠ 0 →
      (IVRRenderModels.get_name models index).2 =
        [(index, 0), (index, (models.GetRenderModelName index 0).1)] ∧
      ((models.GetRenderModelName index (models.GetRenderModelName index 0).1).1 ≠
          (models.GetRenderModelName index 0).1 →
        (IVRRenderModels.get_name models index).1 = .error .sizeChanged)) := by
  constructor
  · intro h0
    simp [IVRRenderModels.get_name, h0]
  · intro hne
    constructor
    · simp only [IVRRenderModels.get_name, if_neg hne]
      split
      · rfl
      · split <;> rfl
    · intro hsz
      simp [IVRRenderModels.get_name, hne, hsz]

/-- Instantiation of `get_name_two_phase_protocol` on a concrete table: an
empty catalog entry returns empty text after a single driver call. -/
theorem get_name_two_phase_protocol_witness :
    IVRRenderModels.get_name loadingTable 4 = (.ok "", [(4, 0)]) :=
  (get_name_two_phase_protocol loadingTable 4).1 rfl

/-- C5: when the first `get_name` call reports a non-zero required length L
and the second call agrees, the returned text is the first L - 1 bytes of
the filled buffer decoded as UTF-8 — the subtraction applied
unconditionally, so at the boundary L = 1 the empty text is returned — and
ill-formed bytes are the fatal `utf8Invalid` fault, not a returned value. -/
theorem get_name_strips_terminator (models : VR_IVRRenderModels_FnTable)
    (index required size : Nat) (bytes : List Nat)
    (h0 : (models.GetRenderModelName index 0).1 = required)
    (hreq : required ≠ 0)
    (h2 : models.GetRenderModelName index required = (size, bytes))
    (hagree : size = required) :
    (∀ chars, utf8DecodeBytes (bytes.take (required - 1)) = some chars →
      IVRRenderModels.get_name models index =
        (.ok (String.mk chars), [(index, 0), (index, required)])) ∧
    (utf8DecodeBytes (bytes.take (required - 1)) = none →
      IVRRenderModels.get_name models index =
        (.error .utf8Invalid, [(index, 0), (index, required)])) ∧
    (required = 1 →
      IVRRenderModels.get_name models index =
        (.ok "", [(index, 0), (index, required)])) := by
  subst hagree
  refine ⟨fun chars hdec => ?_, fun hdec => ?_, fun hone => ?_⟩
  · simp [IVRRenderModels.get_name, h0, hreq, h2, hdec]
  · simp [IVRRenderModels.get_name, h0, hreq, h2, hdec]
  · subst hone
    simp [IVRRenderModels.get_name, h0, hreq, h2]
    rfl

/-- Instantiation of `get_name_strips_terminator` on a concrete table whose
entry reports length 3 and fills the buffer with `"hi"` plus the NUL
terminator. -/
theorem get_name_strips_terminator_witness :
    IVRRenderModels.get_name sampleTable 0 =
      (.ok (String.mk ['h', 'i']), [(0, 0), (0, 3)]) :=
  (get_name_strips_terminator sampleTable 0 3 3 [104, 105, 0] rfl (by decide)
    rfl rfl).1 ['h', 'i'] (by decide)

theorem load_texture_async_some_eq {α : Type} (tbl : VR_IVRRenderModels_FnTable)
    (model : RenderModel_t α) :
    RenderModel.load_texture_async (some tbl) model =
      some (if (tbl.LoadTexture_Async model.diffuseTextureId).err = .VRRenderModelError_None
              then .ok ⟨(tbl.LoadTexture_Async model.diffuseTextureId).ptr⟩
              else .error (tbl.LoadTexture_Async model.diffuseTextureId).err,
            [.driverLoadTextureCall model.diffuseTextureId]) := rfl

theorem load_adapter_aux (name : List Nat) (hname : name.contains 0 = false) :
    ∀ (k : Nat) (tables : Nat → VR_IVRRenderModels_FnTable),
      (∀ j, j < k →
        ((tables j).LoadRenderModel_Async name).err = .VRRenderModelError_Loading) →
      ((tables k).LoadRenderModel_Async name).err ≠ .VRRenderModelError_Loading →
      ∀ fuel, k < fuel →
        ∃ r tr, IVRRenderModels.load_async (tables k) name = some (r, tr) ∧
          IVRRenderModels.load tables name fuel = some (r, 10 * k) ∧
          r ≠ .error .VRRenderModelError_Loading := by
  intro k
  induction k with
  | zero =>
    intro tables _ hstop fuel hfuel
    cases fuel with
    | zero => exact absurd hfuel (Nat.not_lt_zero _)
    | succ n =>
      by_cases he : ((tables 0).LoadRenderModel_Async name).err = .VRRenderModelError_None
      · refine ⟨.ok ⟨((tables 0).LoadRenderModel_Async name).ptr⟩,
          [.cstringAlloc name, .driverLoadModelCall name, .cstringFree name],
          ?_, ?_, fun hcon => Except.noConfusion hcon⟩
        · simp [load_async_eq_of_no_nul _ _ hname, he]
        · simp [IVRRenderModels.load, load_async_eq_of_no_nul _ _ hname, he]
      · refine ⟨.error ((tables 0).LoadRenderModel_Async name).err,
          [.cstringAlloc name, .driverLoadModelCall name, .cstringFree name],
          ?_, ?_, ?_⟩
        · simp [load_async_eq_of_no_nul _ _ hname, he]
        · simp [IVRRenderModels.load, load_async_eq_of_no_nul _ _ hname, he,
            is_loading_eq_false_of_ne _ hstop]
        · simp only [ne_eq, Except.error.injEq]
          exact hstop
  | succ k ih =>
    intro tables hload hstop fuel hfuel
    cases fuel with
    | zero => exact absurd hfuel (Nat.not_lt_zero _)
    | succ n =>
      have hk : k < n := Nat.lt_of_succ_lt_succ hfuel
      have h0 : ((tables 0).LoadRenderModel_Async name).err = .VRRenderModelError_Loading :=
        hload 0 (Nat.succ_pos k)
      obtain ⟨r, tr, ha, hl, hr⟩ := ih (fun j => tables (j + 1))
        (fun j hj => hload (j + 1) (Nat.succ_lt_succ hj)) hstop n hk
      have hne : ((tables 0).LoadRenderModel_Async name).err ≠ .VRRenderModelError_None := by
        rw [h0]
        exact fun hcon => EVRRenderModelError.noConfusion hcon
      refine ⟨r, tr, ha, ?_, hr⟩
      simp [IVRRenderModels.load, load_async_eq_of_no_nul _ _ hname, h0, hl,
        is_loading, Nat.mul_succ]

theorem load_texture_adapter_aux {α : Type} (model : RenderModel_t α) :
    ∀ (k : Nat) (tbls : Nat → VR_IVRRenderModels_FnTable),
      (∀ j, j < k →
        ((tbls j).LoadTexture_Async model.diffuseTextureId).err = .VRRenderModelError_Loading) →
      ((tbls k).LoadTexture_Async model.diffuseTextureId).err ≠ .VRRenderModelError_Loading →
      ∀ fuel, k < fuel →
        ∃ r tr, RenderModel.load_texture_async (some (tbls k)) model = some (r, tr) ∧
          RenderModel.load_texture (fun j => some (tbls j)) model fuel = some (r, 10 * k) ∧
          r ≠ .error .VRRenderModelError_Loading := by
  intro k
  induction k with
  | zero =>
    intro tbls _ hstop fuel hfuel
    cases fuel with
    | zero => exact absurd hfuel (Nat.not_lt_zero _)
    | succ n =>
      by_cases he : ((tbls 0).LoadTexture_Async model.diffuseTextureId).err = .VRRenderModelError_None
      · refine ⟨.ok ⟨((tbls 0).LoadTexture_Async model.diffuseTextureId).ptr⟩,
          [.driverLoadTextureCall model.diffuseTextureId],
          ?_, ?_, fun hcon => Except.noConfusion hcon⟩
        · simp [load_texture_async_some_eq, he]
        · simp [RenderModel.load_texture, load_texture_async_some_eq, he]
      · refine ⟨.error ((tbls 0).LoadTexture_Async model.diffuseTextureId).err,
          [.driverLoadTextureCall model.diffuseTextureId], ?_, ?_, ?_⟩
        · simp [load_texture_async_some_eq, he]
        · simp [RenderModel.load_texture, load_texture_async_some_eq, he,
            is_loading_eq_false_of_ne _ hstop]
        · simp only [ne_eq, Except.error.injEq]
          exact hstop
  | succ k ih =>
    intro tbls hload hstop fuel hfuel
    cases fuel with
    | zero => exact absurd hfuel (Nat.not_lt_zero _)
    | succ n =>
      have hk : k < n := Nat.lt_of_succ_lt_succ hfuel
      have h0 : ((tbls 0).LoadTexture_Async model.diffuseTextureId).err = .VRRenderModelError_Loading :=
        hload 0 (Nat.succ_pos k)
      obtain ⟨r, tr, ha, hl, hr⟩ := ih (fun j => tbls (j + 1))
        (fun j hj => hload (j + 1) (Nat.succ_lt_succ hj)) hstop n hk
      have hne : ((tbls 0).LoadTexture_Async model.diffuseTextureId).err ≠ .VRRenderModelError_None := by
        rw [h0]
        exact fun hcon => EVRRenderModelError.noConfusion hcon
      refine ⟨r, tr, ha, ?_, hr⟩
      simp [RenderModel.load_texture, load_texture_async_some_eq, h0, hl,
        is_loading, Nat.mul_succ]

/-- C2: the blocking `load` (and `load_texture`) is the async-to-sync
adapter over the async operation: with the driver answering Loading for the
first k polls and a non-Loading code at poll k, the blocking variant
returns, for every sufficiently large modelled unrolling, exactly the
result of the async operation at poll k — the owned handle on success, the
terminal error unchanged otherwise — after sleeping 10 ms per Loading poll,
for arbitrary k (no retry bound), and the result is never the Loading
code. -/
theorem load_blocking_is_async_adapter :
    (∀ (tables : Nat → VR_IVRRenderModels_FnTable) (name : List Nat) (k : Nat),
      name.contains 0 = false →
      (∀ j, j < k →
        ((tables j).LoadRenderModel_Async name).err = .VRRenderModelError_Loading) →
      ((tables k).LoadRenderModel_Async name).err ≠ .VRRenderModelError_Loading →
      ∀ fuel, k < fuel →
        ∃ r tr, IVRRenderModels.load_async (tables k) name = some (r, tr) ∧
          IVRRenderModels.load tables name fuel = some (r, 10 * k) ∧
          r ≠ .error .VRRenderModelError_Loading) ∧
    (∀ (α : Type) (tbls : Nat → VR_IVRRenderModels_FnTable)
        (model : RenderModel_t α) (k : Nat),
      (∀ j, j < k →
        ((tbls j).LoadTexture_Async model.diffuseTextureId).err = .VRRenderModelError_Loading) →
      ((tbls k).LoadTexture_Async model.diffuseTextureId).err ≠ .VRRenderModelError_Loading →
      ∀ fuel, k < fuel →
        ∃ r tr, RenderModel.load_texture_async (some (tbls k)) model = some (r, tr) ∧
          RenderModel.load_texture (fun j => some (tbls j)) model fuel = some (r, 10 * k) ∧
          r ≠ .error .VRRenderModelError_Loading) :=
  ⟨fun tables name k hname hload hstop => load_adapter_aux name hname k tables hload hstop,
   fun _ tbls model k hload hstop => load_texture_adapter_aux model k tbls hload hstop⟩

/-- Instantiation of `load_blocking_is_async_adapter`: one Loading poll,
then success; the blocking load returns the handle after one 10 ms
sleep. -/
theorem load_blocking_is_async_adapter_witness :
    ∃ r tr,
      IVRRenderModels.load_async
        ((fun j => if j = 0 then loadingTable else sampleTable) 1) [97] = some (r, tr) ∧
      IVRRenderModels.load (fun j => if j = 0 then loadingTable else sampleTable) [97] 3 =
        some (r, 10 * 1) ∧
      r ≠ .error .VRRenderModelError_Loading :=
  load_blocking_is_async_adapter.1 (fun j => if j = 0 then loadingTable else sampleTable)
    [97] 1 (by decide)
    (fun j hj => by
      have hj0 : j = 0 := Nat.lt_one_iff.mp hj
      subst hj0
      decide)
    (by decide) 3 (by decide)

theorem freeModelCount_append (p : Nat) (l1 l2 : List Event) :
    freeModelCount p (l1 ++ l2) = freeModelCount p l1 + freeModelCount p l2 := by
  simp [freeModelCount, List.filter_append]

theorem freeTextureCount_append (p : Nat) (l1 l2 : List Event) :
    freeTextureCount p (l1 ++ l2) = freeTextureCount p l1 + freeTextureCount p l2 := by
  simp [freeTextureCount, List.filter_append]

theorem freeModelCount_viewUse_map (p q : Nat) (uses : List ViewUse) :
    freeModelCount p (uses.map (Event.viewUse q)) = 0 := by
  induction uses with
  | nil => rfl
  | cons u us ih => simp [freeModelCount, List.filter_cons]

theorem freeTextureCount_viewUse_map (p q : Nat) (uses : List ViewUse) :
    freeTextureCount p (uses.map (Event.viewUse q)) = 0 := by
  induction uses with
  | nil => rfl
  | cons u us ih => simp [freeTextureCount, List.filter_cons]

/-- C1: in a scope that successfully creates a `RenderModel` (resp.
`RenderModelTexture`) on a live subsystem, the matching driver release entry
point is invoked exactly once, with the owned pointer, as the very last
event — hence at destruction and never before the last use of any buffer
view derived from the handle — and in a scope whose load returns an error no
release call of either kind happens. -/
theorem release_invoked_exactly_once_at_destruction :
    (∀ (tbl self : VR_IVRRenderModels_FnTable) (name : List Nat) (uses : List ViewUse),
      name.contains 0 = false →
      ∃ evs, renderModelScope (some tbl) self name uses = some evs ∧
        ((self.LoadRenderModel_Async name).err = .VRRenderModelError_None →
          freeModelCount (self.LoadRenderModel_Async name).ptr evs = 1 ∧
          evs.getLast? =
            some (.freeRenderModelCall (self.LoadRenderModel_Async name).ptr)) ∧
        ((self.LoadRenderModel_Async name).err ≠ .VRRenderModelError_None →
          (∀ p, freeModelCount p evs = 0) ∧ (∀ p, freeTextureCount p evs = 0))) ∧
    (∀ (α : Type) (tbl : VR_IVRRenderModels_FnTable) (model : RenderModel_t α)
        (uses : List ViewUse),
      ∃ evs, renderModelTextureScope (some tbl) model uses = some evs ∧
        ((tbl.LoadTexture_Async model.diffuseTextureId).err = .VRRenderModelError_None →
          freeTextureCount (tbl.LoadTexture_Async model.diffuseTextureId).ptr evs = 1 ∧
          evs.getLast? =
            some (.freeTextureCall (tbl.LoadTexture_Async model.diffuseTextureId).ptr)) ∧
        ((tbl.LoadTexture_Async model.diffuseTextureId).err ≠ .VRRenderModelError_None →
          (∀ p, freeTextureCount p evs = 0) ∧ (∀ p, freeModelCount p evs = 0))) := by
  constructor
  · intro tbl self name uses hname
    by_cases he : (self.LoadRenderModel_Async name).err = .VRRenderModelError_None
    · refine ⟨[.cstringAlloc name, .driverLoadModelCall name, .cstringFree name] ++
        uses.map (Event.viewUse (self.LoadRenderModel_Async name).ptr) ++
        [.freeRenderModelCall (self.LoadRenderModel_Async name).ptr],
        ?_, fun _ => ⟨?_, ?_⟩, fun hne => absurd he hne⟩
      · simp [renderModelScope, load_async_eq_of_no_nul _ _ hname, he, RenderModel.drop]
      · rw [freeModelCount_append, freeModelCount_append, freeModelCount_viewUse_map]
        simp [freeModelCount, List.filter_cons]
      · exact List.getLast?_concat _
    · refine ⟨[.cstringAlloc name, .driverLoadModelCall name, .cstringFree name],
        ?_, fun hyes => absurd hyes he, fun _ => ⟨fun p => ?_, fun p => ?_⟩⟩
      · simp [renderModelScope, load_async_eq_of_no_nul _ _ hname, he]
      · simp [freeModelCount]
      · simp [freeTextureCount]
  · intro α tbl model uses
    by_cases he : (tbl.LoadTexture_Async model.diffuseTextureId).err = .VRRenderModelError_None
    · refine ⟨[.driverLoadTextureCall model.diffuseTextureId] ++
        uses.map (Event.viewUse (tbl.LoadTexture_Async model.diffuseTextureId).ptr) ++
        [.freeTextureCall (tbl.LoadTexture_Async model.diffuseTextureId).ptr],
        ?_, fun _ => ⟨?_, ?_⟩, fun hne => absurd he hne⟩
      · simp [renderModelTextureScope, load_texture_async_some_eq, he,
          RenderModelTexture.drop]
      · rw [freeTextureCount_append, freeTextureCount_append, freeTextureCount_viewUse_map]
        simp [freeTextureCount, List.filter_cons]
      · exact List.getLast?_concat _
    · refine ⟨[.driverLoadTextureCall model.diffuseTextureId],
        ?_, fun hyes => absurd hyes he, fun _ => ⟨fun p => ?_, fun p => ?_⟩⟩
      · simp [renderModelTextureScope, load_texture_async_some_eq, he]
      · simp [freeTextureCount]
      · simp [freeModelCount]

/-- Instantiation of `release_invoked_exactly_once_at_destruction` on a
concrete successful scope. -/
theorem release_invoked_exactly_once_at_destruction_witness :
    ∃ evs, renderModelScope (some sampleTable) sampleTable [97] [.vertexRead 0] = some evs ∧
      ((sampleTable.LoadRenderModel_Async [97]).err = .VRRenderModelError_None →
        freeModelCount (sampleTable.LoadRenderModel_Async [97]).ptr evs = 1 ∧
        evs.getLast? =
          some (.freeRenderModelCall (sampleTable.LoadRenderModel_Async [97]).ptr)) ∧
      ((sampleTable.LoadRenderModel_Async [97]).err ≠ .VRRenderModelError_None →
        (∀ p, freeModelCount p evs = 0) ∧ (∀ p, freeTextureCount p evs = 0)) :=
  release_invoked_exactly_once_at_destruction.1 sampleTable sampleTable [97]
    [.vertexRead 0] (by decide)

/-- A concrete `RenderModel_t` pointee with trivial payloads, used for
closed instantiations. -/
def unitModel : RenderModel_t Unit where
  rVertexData := fun _ => ()
  unVertexCount := 0
  rIndexData := fun _ => 0
  unTriangleCount := 0
  diffuseTextureId := 3

/-- Counterexample to C9: the `Drop` impl of `RenderModel` reaches the
driver through the ambient global subsystem accessor
(`render_models().unwrap()`), not through any capability stored in the
handle (which stores only the foreign pointer), so on the same handle its
outcome differs between two ambient global states. -/
theorem drop_outcome_depends_on_global_state :
    RenderModel.drop (some sampleTable) ⟨5⟩ = some (.freeRenderModelCall 5) ∧
    RenderModel.drop none ⟨5⟩ = none ∧
    RenderModel.drop (some sampleTable) ⟨5⟩ ≠ RenderModel.drop none ⟨5⟩ :=
  ⟨rfl, rfl, by decide⟩

/-- C9 (amended): `get_count` and `load_async` reach the driver only
through the function table stored in the invoked `IVRRenderModels` value —
their results are determined by the relevant entries of that table — but
the two `Drop` impls, `load_texture_async` and `get_name` reach the driver
through the ambient global subsystem state, and their outcomes can differ
between two runs that agree on everything stored in the invoked value. -/
theorem driver_reached_via_injected_capability_only_partially :
    (∀ self self' : VR_IVRRenderModels_FnTable,
      self.GetRenderModelCount = self'.GetRenderModelCount →
      IVRRenderModels.get_count self = IVRRenderModels.get_count self') ∧
    (∀ (self self' : VR_IVRRenderModels_FnTable) (name : List Nat),
      self.LoadRenderModel_Async = self'.LoadRenderModel_Async →
      IVRRenderModels.load_async self name = IVRRenderModels.load_async self' name) ∧
    (∃ (g g' : Option VR_IVRRenderModels_FnTable) (m : RenderModel),
      RenderModel.drop g m ≠ RenderModel.drop g' m) ∧
    (∃ (g g' : Option VR_IVRRenderModels_FnTable) (t : RenderModelTexture),
      RenderModelTexture.drop g t ≠ RenderModelTexture.drop g' t) ∧
    (∃ (g g' : Option VR_IVRRenderModels_FnTable) (model : RenderModel_t Unit),
      RenderModel.load_texture_async g model ≠ RenderModel.load_texture_async g' model) ∧
    (∃ (g g' : VR_IVRRenderModels_FnTable) (i : Nat),
      IVRRenderModels.get_name g i ≠ IVRRenderModels.get_name g' i) := by
  refine ⟨fun self self' h => h, fun self self' name h => ?_,
    ⟨some sampleTable, none, ⟨5⟩, by decide⟩,
    ⟨some sampleTable, none, ⟨6⟩, by decide⟩,
    ⟨some sampleTable, none, unitModel, fun hcon => Option.noConfusion hcon⟩,
    ⟨sampleTable, loadingTable, 0, ?_⟩⟩
  · simp [IVRRenderModels.load_async, h]
  · intro hcon
    have h2 := congrArg Prod.snd hcon
    exact absurd h2 (by decide)

/-- Instantiation of
`driver_reached_via_injected_capability_only_partially` on concrete
tables. -/
theorem driver_reached_via_injected_capability_only_partially_witness :
    IVRRenderModels.load_async sampleTable [98] =
      IVRRenderModels.load_async sampleTable [98] :=
  driver_reached_via_injected_capability_only_partially.2.1 sampleTable sampleTable
    [98] rfl
